import Mathlib

/-!
Verification of the log analytics and validation engine of
virtual-sensor-hub (tools/check_log.py and tools/parse_logs.py).

Lines of a log are modelled as `String`s; all character-level processing
(stripping, splitting on `|`) is carried out on the underlying character
lists so every definition is executable and kernel-reducible.  Floating
point values are modelled by `ℚ`: the claims under study are about the
structure of the computations (which lines are kept, which statistics are
defined, window index arithmetic), not about rounding of IEEE floats.
-/

/-- Whitespace characters removed by Python `str.strip()` (the ones that can
realistically occur in a log line). -/
def isSpaceChar (c : Char) : Bool :=
  c = ' ' || c = '\t' || c = '\n' || c = '\r'

/-- Model of Python `str.strip()` on a character list. -/
def trimChars (cs : List Char) : List Char :=
  ((cs.dropWhile isSpaceChar).reverse.dropWhile isSpaceChar).reverse

/-- Model of Python `str.split(sep)` for a one-character separator:
`splitOnChar '|' "a|b"` gives `["a","b"]`, an empty input gives `[""]`. -/
def splitOnChar (sep : Char) : List Char → List (List Char)
  | [] => [[]]
  | c :: rest =>
    let r := splitOnChar sep rest
    if c = sep then [] :: r
    else (c :: r.headD []) :: r.tail

/-- Numeric value of a list of decimal digit characters. -/
def digitsToNat (cs : List Char) : Nat :=
  cs.foldl (fun a c => 10 * a + (c.toNat - 48)) 0

/-- All characters are decimal digits. -/
def allDigits (cs : List Char) : Bool :=
  cs.all (fun c => c.isDigit)

/-- Unsigned part of the model of Python `float(...)`: plain decimal
notation `digits`, `digits.digits`, `digits.` or `.digits`. -/
def parseUFloat (cs : List Char) : Option ℚ :=
  match splitOnChar '.' cs with
  | [a] =>
    if a ≠ [] ∧ allDigits a then some (digitsToNat a : ℚ) else none
  | [a, b] =>
    if (a ≠ [] ∨ b ≠ []) ∧ allDigits a ∧ allDigits b then
      some ((digitsToNat a : ℚ) + (digitsToNat b : ℚ) / (10 : ℚ) ^ b.length)
    else none
  | _ => none

/-- Model of Python `float(str)` as used on the `value` / `timestamp_ms`
fields: surrounding whitespace is ignored, an optional sign is followed by
a fixed-point decimal literal; anything else fails (returns `none`, the
model of the `ValueError` the scripts catch and turn into a skip). -/
def parseFloat (cs : List Char) : Option ℚ :=
  match trimChars cs with
  | '+' :: rest => parseUFloat rest
  | '-' :: rest => (parseUFloat rest).map (fun q => -q)
  | t => parseUFloat t

/-- Model of Python `int(q)` on a float: truncation toward zero. -/
def truncRat (q : ℚ) : Int :=
  if q < 0 then -(((-q).num.toNat / (-q).den : Nat) : Int)
  else ((q.num.toNat / q.den : Nat) : Int)

/-- A parsed `SAMPLE` record (parse_logs.py builds the dict
`{type, value, ts_ms}`). -/
structure Sample where
  type : List Char
  value : ℚ
  ts_ms : Int
deriving DecidableEq

/-- A parsed `ALERT` record (parse_logs.py builds the dict
`{type, value, ts_ms, info}`). -/
structure Alert where
  type : List Char
  value : ℚ
  ts_ms : Int
  info : List Char
deriving DecidableEq

/-- Outcome of parse_logs.py's per-line handling: the line contributes a
sample, an alert, or is silently skipped. -/
inductive ParsedLine where
  | sample (s : Sample)
  | alert (a : Alert)
  | skipped
deriving DecidableEq

/-- The `|`-separated fields of a stripped line. -/
def lineParts (line : String) : List (List Char) :=
  splitOnChar '|' (trimChars line.data)

/-- One iteration of the parse loop of `parse_log` (parse_logs.py lines
52-73): strip the line, skip it when blank, split on `|`, accept a
`SAMPLE` with at least 4 fields or an `ALERT` with at least 5 fields when
both numeric fields convert, and skip everything else. -/
def parseLine (line : String) : ParsedLine :=
  let l := trimChars line.data
  if l = [] then ParsedLine.skipped
  else
    let parts := splitOnChar '|' l
    if parts.headD [] = "SAMPLE".data ∧ 4 ≤ parts.length then
      match parseFloat (parts.getD 2 []), parseFloat (parts.getD 3 []) with
      | some v, some t => ParsedLine.sample ⟨parts.getD 1 [], v, truncRat t⟩
      | _, _ => ParsedLine.skipped
    else if parts.headD [] = "ALERT".data ∧ 5 ≤ parts.length then
      match parseFloat (parts.getD 2 []), parseFloat (parts.getD 3 []) with
      | some v, some t =>
        ParsedLine.alert ⟨parts.getD 1 [], v, truncRat t, parts.getD 4 []⟩
      | _, _ => ParsedLine.skipped
    else ParsedLine.skipped

/-- The sample produced by a line, if any. -/
def lineSample (line : String) : Option Sample :=
  match parseLine line with
  | ParsedLine.sample s => some s
  | _ => none

/-- The alert produced by a line, if any. -/
def lineAlert (line : String) : Option Alert :=
  match parseLine line with
  | ParsedLine.alert a => some a
  | _ => none

/-- The `parse_log` function (parse_logs.py lines 48-76): fold over the lines of the
file, collecting samples and alerts in file order. -/
def parse_log (lines : List String) : List Sample × List Alert :=
  lines.foldr
    (fun line acc =>
      match parseLine line with
      | ParsedLine.sample s => (s :: acc.1, acc.2)
      | ParsedLine.alert a => (acc.1, a :: acc.2)
      | ParsedLine.skipped => acc)
    ([], [])

/-- The three sensor channels. -/
inductive SensorType where
  | TEMP
  | HUM
  | PRESS
deriving DecidableEq

/-- The name under which a channel appears in log lines. -/
def SensorType.tag : SensorType → List Char
  | SensorType.TEMP => "TEMP".data
  | SensorType.HUM => "HUM".data
  | SensorType.PRESS => "PRESS".data

/-- The `RATES_MS` table (check_log.py lines 31-35): nominal sampling interval per
channel, in milliseconds. -/
def RATES_MS : SensorType → Nat
  | SensorType.TEMP => 500
  | SensorType.HUM => 700
  | SensorType.PRESS => 1200

/-- The `WINDOW_SIZE` constant (check_log.py line 38). -/
def WINDOW_SIZE : Nat := 5

/-- The `expected` value for one rate (check_log.py lines 43-45):
`max(1, floor(duration_ms / rate_ms) - 1)`, computed over the integers as
in Python (`raw - 1` may be negative before the `max`). -/
def expected_of (duration_ms rate_ms : Nat) : Int :=
  max 1 ((duration_ms / rate_ms : Nat) - 1)

/-- The `expected` table of check_log.py, keyed by channel. -/
def expected (duration_ms : Nat) (k : SensorType) : Int :=
  expected_of duration_ms (RATES_MS k)

/-- Classification used by the counting loop of check_log.py (lines
54-67): a stripped, non-blank line with first field `SAMPLE` and at least
4 fields counts as a sample of its second field, first field `ALERT` with
at least 5 fields as an alert of its second field; no numeric conversion
is attempted there. -/
def checkCountsLine (line : String) : Option (Bool × List Char) :=
  let l := trimChars line.data
  if l = [] then none
  else
    let parts := splitOnChar '|' l
    if parts.headD [] = "SAMPLE".data ∧ 4 ≤ parts.length then
      some (true, parts.getD 1 [])
    else if parts.headD [] = "ALERT".data ∧ 5 ≤ parts.length then
      some (false, parts.getD 1 [])
    else none

/-- The `sample_counts[k]` counter of check_log.py: number of sample-shaped lines whose
type field is exactly `k`'s tag (the `if typ in sample_counts` membership
test drops every other type). -/
def sample_counts (lines : List String) (k : SensorType) : Nat :=
  lines.countP (fun l => decide (checkCountsLine l = some (true, k.tag)))

/-- The `alert_counts[k]` counter of check_log.py. -/
def alert_counts (lines : List String) (k : SensorType) : Nat :=
  lines.countP (fun l => decide (checkCountsLine l = some (false, k.tag)))

/-- Iteration order of the completeness loop (check_log.py line 90). -/
def sensorsOrder : List SensorType :=
  [SensorType.TEMP, SensorType.HUM, SensorType.PRESS]

/-- The completeness loop of check_log.py (lines 89-93): `ok` starts true
and is set to false for each channel whose count is below expectation;
the loop never stops early. -/
def check1_fold (counts : SensorType → Nat) (duration_ms : Nat) : Bool :=
  sensorsOrder.foldl
    (fun ok k => if (counts k : Int) < expected duration_ms k then false else ok)
    true

/-- The channels flagged with an `ERROR:` line by the completeness loop. -/
def failed_sensors (counts : SensorType → Nat) (duration_ms : Nat) : List SensorType :=
  sensorsOrder.filter (fun k => decide ((counts k : Int) < expected duration_ms k))

/-- The `min_ms_for_window_temp` threshold (check_log.py line 96). -/
def min_ms_for_window_temp : Nat := WINDOW_SIZE * RATES_MS SensorType.TEMP

/-- The alert-policy stage of check_log.py (lines 97-102): when the run is
long enough to have filled the TEMP moving-average window, at least one
TEMP alert is required; otherwise the stage never fails. -/
def alert_check_ok (alerts : SensorType → Nat) (duration_ms : Nat) : Bool :=
  if min_ms_for_window_temp ≤ duration_ms then decide (1 ≤ alerts SensorType.TEMP)
  else true

/-- Final `ok` of check_log.py (exit 0 iff true): the completeness loop's
result, possibly forced to false by the alert-policy stage. -/
def check_log_ok (counts alerts : SensorType → Nat) (duration_ms : Nat) : Bool :=
  check1_fold counts duration_ms && alert_check_ok alerts duration_ms

/-- Insertion step of the sort used to model `sort_values` / `sorted(...)`. -/
def insertBy (le : α → α → Bool) (a : α) : List α → List α
  | [] => [a]
  | b :: bs => if le a b then a :: b :: bs else b :: insertBy le a bs

/-- Comparison sort (insertion sort) used to model pandas
`DataFrame.sort_values` and Python `sorted`: any comparison sort computes
the same ordered arrangement for the orders used here. -/
def sortBy (le : α → α → Bool) : List α → List α
  | [] => []
  | a :: as => insertBy le a (sortBy le as)

/-- Lexicographic order on character lists, as Python compares strings. -/
def charListLe : List Char → List Char → Bool
  | [], _ => true
  | _ :: _, [] => false
  | a :: as, b :: bs => if a = b then charListLe as bs else decide (a < b)

/-- Model of pandas `unique()`: first occurrence of each element, in order. -/
def uniqueAux [DecidableEq α] (seen : List α) : List α → List α
  | [] => []
  | a :: as => if a ∈ seen then uniqueAux seen as else a :: uniqueAux (a :: seen) as

/-- First occurrences, as the summary code obtains the sensor list. -/
def uniqueFirst [DecidableEq α] (l : List α) : List α :=
  uniqueAux [] l

/-- Minimum of a series, pandas min(): `none` exactly when the series is empty. -/
def listMin : List ℚ → Option ℚ
  | [] => none
  | x :: xs => some (xs.foldl min x)

/-- Maximum of a series, pandas max(): `none` exactly when the series is empty. -/
def listMax : List ℚ → Option ℚ
  | [] => none
  | x :: xs => some (xs.foldl max x)

/-- Arithmetic mean of a series (pandas `mean()` on a nonempty series). -/
def listMean (l : List ℚ) : ℚ :=
  l.sum / l.length

/-- Sample variance with denominator `n - 1` (pandas default `ddof=1`).
pandas `std()` is its square root and is NaN exactly when `n < 2`; the
claims about `std` only concern this definedness, which the square root
preserves, so the model stores the variance under the `std` field. -/
def sampleVar (l : List ℚ) : Option ℚ :=
  if l.length < 2 then none
  else some (((l.map (fun v => (v - listMean l) ^ 2)).sum) / ((l.length : ℚ) - 1))

/-- One row of `summary.csv` (parse_logs.py lines 93-101); statistics that
the code leaves as `None`/NaN are modelled as `none`. -/
structure SummaryRow where
  sensor : List Char
  count : Nat
  min : Option ℚ
  max : Option ℚ
  mean : Option ℚ
  std : Option ℚ
  alert_count : Nat
deriving DecidableEq

/-- The loop body of `summary_csv` (parse_logs.py lines 91-102): `d` is
the value series of that type's samples; `min`, `max`, `mean`, `std` are
`None` when `d` is empty, and `std` is further undefined (NaN) when `d`
has fewer than two elements.  The source reaches this body only when both
frames have a `type` column, i.e. when at least one sample and at least
one alert parsed (see `summary_csv`); under that condition
`df_alerts[df_alerts.type == s].shape[0]` is exactly the list filter
modelling `alert_count` here. -/
def mkRow (samples : List Sample) (alerts : List Alert) (s : List Char) : SummaryRow :=
  let d := (samples.filter (fun x => decide (x.type = s))).map Sample.value
  { sensor := s
    count := d.length
    min := listMin d
    max := listMax d
    mean := if d.isEmpty then none else some (listMean d)
    std := if d.isEmpty then none else sampleVar d
    alert_count := (alerts.filter (fun a => decide (a.type = s))).length }

/-- The `summary_csv` aggregation (parse_logs.py lines 88-105): one row
per distinct sensor type present in the samples, in sorted order.
`none` models the uncaught KeyError aborts of the source: a DataFrame
built from an empty list has no columns, so with zero parsed samples
line 89 (`df_samples.type`) raises, and with at least one sample but
zero parsed alerts line 100 (`df_alerts.type`) raises on the first loop
iteration; in both situations the program crashes and emits no row at
all.  Only when both lists are nonempty does the function return the
row list. -/
def summary_csv (samples : List Sample) (alerts : List Alert) :
    Option (List SummaryRow) :=
  if samples.isEmpty then none
  else if alerts.isEmpty then none
  else
    some ((sortBy charListLe (uniqueFirst (samples.map Sample.type))).map
      (mkRow samples alerts))

/-- pandas `rolling(window=w, min_periods=1).mean()` (parse_logs.py line
135): position `i` of the result averages the input positions
`i + 1 - w` (clamped at 0) through `i`. -/
def rollingMean (vals : List ℚ) (w : Nat) : List ℚ :=
  (List.range vals.length).map (fun i =>
    listMean ((vals.take (i + 1)).drop (i + 1 - w)))

/-- The trailing window exactly as the spec words it: the sample values at
positions `max(0, i-w+1)` through `i` inclusive. -/
def specWindow (vals : List ℚ) (w i : Nat) : List ℚ :=
  let lo : Nat := if w ≤ i + 1 then i + 1 - w else 0
  (vals.drop lo).take (i + 1 - lo)

/-- The per-sensor series of `plot_timeseries` (parse_logs.py lines
128-132): the samples of one type, sorted ascending by `ts_ms`. -/
def sensorSeries (samples : List Sample) (sensor : List Char) : List Sample :=
  sortBy (fun a b => decide (a.ts_ms ≤ b.ts_ms))
    (samples.filter (fun s => decide (s.type = sensor)))

/-- The `ma` column of `plot_timeseries` (parse_logs.py line 135). -/
def plotMA (samples : List Sample) (sensor : List Char) (w : Nat) : List ℚ :=
  rollingMean ((sensorSeries samples sensor).map Sample.value) w

/-- A line is "convertible" when, if it is shaped like a countable
`SAMPLE`/`ALERT` line, its value and timestamp fields pass numeric
conversion.  check_log.py counts a line by shape alone; parse_logs.py
additionally demands convertibility, so the two agree exactly on
convertible lines. -/
def lineConvertible (line : String) : Bool :=
  match checkCountsLine line with
  | some _ =>
    (parseFloat ((lineParts line).getD 2 [])).isSome &&
      (parseFloat ((lineParts line).getD 3 [])).isSome
  | none => true

theorem check1_fold_false_iff (counts : SensorType → Nat) (d : Nat) :
    check1_fold counts d = false ↔ ∃ k, (counts k : Int) < expected d k := by
  unfold check1_fold sensorsOrder
  simp only [List.foldl_cons, List.foldl_nil]
  constructor
  · intro h
    by_contra hn
    push_neg at hn
    rw [if_neg (not_lt.mpr (hn _)), if_neg (not_lt.mpr (hn _)),
      if_neg (not_lt.mpr (hn _))] at h
    exact Bool.true_eq_false.mp h
  · rintro ⟨k, hk⟩
    cases k <;> split_ifs <;> simp_all

/-- C1: the completeness check uses `expected = max(1, floor(duration_ms /
rate_ms) - 1)` with the fixed rate table TEMP=500, HUM=700, PRESS=1200,
flags a sensor as failed iff its observed count is strictly below
expected, checks all three sensors without short-circuiting (every
failing sensor is reported), and judges the run failed whenever any
sensor failed. -/
theorem claim_C1 (counts alerts : SensorType → Nat) (d : Nat) :
    (RATES_MS SensorType.TEMP = 500 ∧ RATES_MS SensorType.HUM = 700 ∧
      RATES_MS SensorType.PRESS = 1200) ∧
    (∀ k, expected d k = max 1 (((d / RATES_MS k : Nat) : Int) - 1)) ∧
    (∀ k, k ∈ failed_sensors counts d ↔ (counts k : Int) < expected d k) ∧
    (check1_fold counts d = false ↔ ∃ k, (counts k : Int) < expected d k) ∧
    (∀ k, (counts k : Int) < expected d k → check_log_ok counts alerts d = false) := by
  refine ⟨⟨rfl, rfl, rfl⟩, fun k => rfl, ?_, check1_fold_false_iff counts d, ?_⟩
  · intro k
    cases k <;> simp [failed_sensors, sensorsOrder]
  · intro k hk
    unfold check_log_ok
    rw [(check1_fold_false_iff counts d).mpr ⟨k, hk⟩]
    rfl

/-- C1 witness: with zero observed counts and a 5000 ms run, TEMP is
below expectation and the overall check fails. -/
theorem claim_C1_witness :
    ((0 : Nat) : Int) < expected 5000 SensorType.TEMP ∧
      check_log_ok (fun _ => 0) (fun _ => 0) 5000 = false :=
  ⟨by decide,
    (claim_C1 (fun _ => 0) (fun _ => 0) 5000).2.2.2.2 SensorType.TEMP (by decide)⟩

/-- C2: the alert-policy stage with WINDOW_SIZE = 5 and TEMP rate 500 is
satisfied for every alert count when duration_ms < 2500, and for
duration_ms ≥ 2500 it fails exactly when the TEMP alert count is zero;
the HUM and PRESS alert counts never influence it. -/
theorem claim_C2 (alerts : SensorType → Nat) (d : Nat) :
    WINDOW_SIZE * RATES_MS SensorType.TEMP = 2500 ∧
    (d < 2500 → alert_check_ok alerts d = true) ∧
    (2500 ≤ d → (alert_check_ok alerts d = false ↔ alerts SensorType.TEMP = 0)) ∧
    (∀ a2 : SensorType → Nat, a2 SensorType.TEMP = alerts SensorType.TEMP →
      alert_check_ok a2 d = alert_check_ok alerts d) := by
  have h2500 : min_ms_for_window_temp = 2500 := rfl
  refine ⟨rfl, ?_, ?_, ?_⟩
  · intro h
    unfold alert_check_ok
    rw [h2500, if_neg (by omega)]
  · intro h
    unfold alert_check_ok
    rw [h2500, if_pos h]
    constructor
    · intro hfalse
      by_contra hne
      rw [decide_eq_false_iff_not] at hfalse
      omega
    · intro h0
      rw [decide_eq_false_iff_not]
      omega
  · intro a2 ha
    unfold alert_check_ok
    rw [ha]

/-- C2 witness: at duration 2500 with zero alerts the policy stage fails. -/
theorem claim_C2_witness :
    (2500 : Nat) ≤ 2500 ∧ alert_check_ok (fun _ => 0) 2500 = false :=
  ⟨by decide, ((claim_C2 (fun _ => 0) 2500).2.2.1 (by decide)).mpr rfl⟩

/-- C8: for a fixed positive rate, `expected_of` is monotonically
non-decreasing in the duration. -/
theorem claim_C8 (R : Nat) (hR : 0 < R) (D1 D2 : Nat) (h : D1 ≤ D2) :
    expected_of D1 R ≤ expected_of D2 R := by
  unfold expected_of
  have hdiv : D1 / R ≤ D2 / R := Nat.div_le_div_right h
  exact max_le_max (le_refl 1)
    (Int.sub_le_sub_right (by exact_mod_cast hdiv) 1)

/-- C8 witness: monotonicity instantiated at rate 500, durations
1000 ≤ 2600. -/
theorem claim_C8_witness :
    (0 : Nat) < 500 ∧ (1000 : Nat) ≤ 2600 ∧ expected_of 1000 500 ≤ expected_of 2600 500 :=
  ⟨by decide, by decide, claim_C8 500 (by decide) 1000 2600 (by decide)⟩

theorem parseLine_eq (line : String) :
    parseLine line =
      (if (lineParts line).headD [] = "SAMPLE".data ∧ 4 ≤ (lineParts line).length then
        match parseFloat ((lineParts line).getD 2 []),
            parseFloat ((lineParts line).getD 3 []) with
        | some v, some t =>
          ParsedLine.sample ⟨(lineParts line).getD 1 [], v, truncRat t⟩
        | _, _ => ParsedLine.skipped
      else if (lineParts line).headD [] = "ALERT".data ∧ 5 ≤ (lineParts line).length then
        match parseFloat ((lineParts line).getD 2 []),
            parseFloat ((lineParts line).getD 3 []) with
        | some v, some t =>
          ParsedLine.alert
            ⟨(lineParts line).getD 1 [], v, truncRat t, (lineParts line).getD 4 []⟩
        | _, _ => ParsedLine.skipped
      else ParsedLine.skipped) := by
  unfold parseLine lineParts
  by_cases h : trimChars line.data = []
  · rw [h]
    rw [if_pos rfl, if_neg (by decide), if_neg (by decide)]
  · rw [if_neg h]

theorem checkCountsLine_eq (line : String) :
    checkCountsLine line =
      (if (lineParts line).headD [] = "SAMPLE".data ∧ 4 ≤ (lineParts line).length then
        some (true, (lineParts line).getD 1 [])
      else if (lineParts line).headD [] = "ALERT".data ∧ 5 ≤ (lineParts line).length then
        some (false, (lineParts line).getD 1 [])
      else none) := by
  unfold checkCountsLine lineParts
  by_cases h : trimChars line.data = []
  · rw [h]
    rw [if_pos rfl, if_neg (by decide), if_neg (by decide)]
  · rw [if_neg h]

theorem parse_log_cons (l : String) (ls : List String) :
    parse_log (l :: ls) =
      match parseLine l with
      | ParsedLine.sample s => (s :: (parse_log ls).1, (parse_log ls).2)
      | ParsedLine.alert a => ((parse_log ls).1, a :: (parse_log ls).2)
      | ParsedLine.skipped => parse_log ls := by
  cases h : parseLine l <;> simp [parse_log, h]

theorem parse_log_eq_filterMap (lines : List String) :
    parse_log lines = (lines.filterMap lineSample, lines.filterMap lineAlert) := by
  induction lines with
  | nil => rfl
  | cons l ls ih =>
    rw [parse_log_cons, List.filterMap_cons, List.filterMap_cons]
    unfold lineSample lineAlert
    cases h : parseLine l <;> simp [h, ih] <;> exact ⟨rfl, rfl⟩

theorem checkCounts_none_skipped (line : String)
    (h : checkCountsLine line = none) : parseLine line = ParsedLine.skipped := by
  rw [parseLine_eq]
  rw [checkCountsLine_eq] at h
  split_ifs at h ⊢ <;> simp_all

theorem checkCounts_sample (line : String) (t : List Char)
    (hconv : lineConvertible line = true)
    (h : checkCountsLine line = some (true, t)) :
    ∃ v ts, parseLine line = ParsedLine.sample ⟨t, v, ts⟩ := by
  unfold lineConvertible at hconv
  rw [h, Bool.and_eq_true, Option.isSome_iff_exists, Option.isSome_iff_exists] at hconv
  obtain ⟨⟨v, hv⟩, ⟨ts, hts⟩⟩ := hconv
  rw [checkCountsLine_eq] at h
  rw [parseLine_eq]
  by_cases hS : (lineParts line).headD [] = "SAMPLE".data ∧ 4 ≤ (lineParts line).length
  · rw [if_pos hS] at h ⊢
    simp only [Option.some.injEq, Prod.mk.injEq] at h
    refine ⟨v, truncRat ts, ?_⟩
    rw [hv, hts, h.2]
  · rw [if_neg hS] at h
    by_cases hA : (lineParts line).headD [] = "ALERT".data ∧ 5 ≤ (lineParts line).length
    · rw [if_pos hA] at h
      simp at h
    · rw [if_neg hA] at h
      exact absurd h (by simp)

theorem checkCounts_alert (line : String) (t : List Char)
    (hconv : lineConvertible line = true)
    (h : checkCountsLine line = some (false, t)) :
    ∃ v ts inf, parseLine line = ParsedLine.alert ⟨t, v, ts, inf⟩ := by
  unfold lineConvertible at hconv
  rw [h, Bool.and_eq_true, Option.isSome_iff_exists, Option.isSome_iff_exists] at hconv
  obtain ⟨⟨v, hv⟩, ⟨ts, hts⟩⟩ := hconv
  rw [checkCountsLine_eq] at h
  rw [parseLine_eq]
  by_cases hS : (lineParts line).headD [] = "SAMPLE".data ∧ 4 ≤ (lineParts line).length
  · rw [if_pos hS] at h
    simp at h
  · rw [if_neg hS] at h ⊢
    by_cases hA : (lineParts line).headD [] = "ALERT".data ∧ 5 ≤ (lineParts line).length
    · rw [if_pos hA] at h ⊢
      simp only [Option.some.injEq, Prod.mk.injEq] at h
      refine ⟨v, truncRat ts, (lineParts line).getD 4 [], ?_⟩
      rw [hv, hts, h.2]
    · rw [if_neg hA] at h
      exact absurd h (by simp)

/-- C6: the event parser is a total function (it is modelled here without
any failure outcome): blank lines, lines with an unrecognized first
field, `SAMPLE` lines with fewer than 4 fields, `ALERT` lines with fewer
than 5 fields, and lines whose value or timestamp field fails numeric
conversion are all skipped, contributing to neither sequence; every
well-formed `SAMPLE`/`ALERT` line produces exactly one record, and the
two output sequences collect exactly the per-line outcomes. -/
theorem claim_C6 (lines : List String) (line : String) :
    (trimChars line.data = [] → parseLine line = ParsedLine.skipped) ∧
    ((lineParts line).headD [] ≠ "SAMPLE".data →
      (lineParts line).headD [] ≠ "ALERT".data →
      parseLine line = ParsedLine.skipped) ∧
    ((lineParts line).headD [] = "SAMPLE".data → (lineParts line).length < 4 →
      parseLine line = ParsedLine.skipped) ∧
    ((lineParts line).headD [] = "ALERT".data → (lineParts line).length < 5 →
      parseLine line = ParsedLine.skipped) ∧
    (parseFloat ((lineParts line).getD 2 []) = none ∨
        parseFloat ((lineParts line).getD 3 []) = none →
      parseLine line = ParsedLine.skipped) ∧
    ((lineParts line).headD [] = "SAMPLE".data → 4 ≤ (lineParts line).length →
      ∀ v t, parseFloat ((lineParts line).getD 2 []) = some v →
        parseFloat ((lineParts line).getD 3 []) = some t →
        parseLine line = ParsedLine.sample ⟨(lineParts line).getD 1 [], v, truncRat t⟩) ∧
    ((lineParts line).headD [] = "ALERT".data → 5 ≤ (lineParts line).length →
      ∀ v t, parseFloat ((lineParts line).getD 2 []) = some v →
        parseFloat ((lineParts line).getD 3 []) = some t →
        parseLine line =
          ParsedLine.alert
            ⟨(lineParts line).getD 1 [], v, truncRat t, (lineParts line).getD 4 []⟩) ∧
    ((parse_log lines).1 = lines.filterMap lineSample ∧
      (parse_log lines).2 = lines.filterMap lineAlert) ∧
    (∀ l, ¬((lineSample l).isSome ∧ (lineAlert l).isSome)) ∧
    (parseLine line = ParsedLine.skipped →
      lineSample line = none ∧ lineAlert line = none) := by
  have hSA : ("SAMPLE".data : List Char) ≠ "ALERT".data := by decide
  refine ⟨?_, ?_, ?_, ?_, ?_, ?_, ?_, ?_, ?_, ?_⟩
  · intro h
    unfold parseLine
    rw [h, if_pos rfl]
  · intro h1 h2
    rw [parseLine_eq, if_neg (fun hc => h1 hc.1), if_neg (fun hc => h2 hc.1)]
  · intro h1 h2
    rw [parseLine_eq, if_neg (fun hc => absurd hc.2 (by omega)),
      if_neg (fun hc => absurd (h1.symm.trans hc.1) hSA)]
  · intro h1 h2
    rw [parseLine_eq, if_neg (fun hc => absurd (hc.1.symm.trans h1) hSA),
      if_neg (fun hc => absurd hc.2 (by omega))]
  · intro h
    rw [parseLine_eq]
    split_ifs with h1 h2
    · rcases h with h | h <;> rw [h] <;>
        cases parseFloat ((lineParts line).getD 2 []) <;>
        cases parseFloat ((lineParts line).getD 3 []) <;> simp_all
    · rcases h with h | h <;> rw [h] <;>
        cases parseFloat ((lineParts line).getD 2 []) <;>
        cases parseFloat ((lineParts line).getD 3 []) <;> simp_all
    · rfl
  · intro h1 h2 v t hv ht
    rw [parseLine_eq, if_pos ⟨h1, h2⟩, hv, ht]
  · intro h1 h2 v t hv ht
    rw [parseLine_eq, if_neg (fun hc => absurd (hc.1.symm.trans h1) hSA),
      if_pos ⟨h1, h2⟩, hv, ht]
  · have h := parse_log_eq_filterMap lines
    exact ⟨congrArg Prod.fst h, congrArg Prod.snd h⟩
  · intro l hl
    obtain ⟨hs, ha⟩ := hl
    unfold lineSample at hs
    unfold lineAlert at ha
    cases h : parseLine l <;> rw [h] at hs ha <;> simp_all
  · intro h
    unfold lineSample lineAlert
    rw [h]
    exact ⟨rfl, rfl⟩

/-- C6 witness: an unrecognized first field and a too-short `SAMPLE` line
are both skipped. -/
theorem claim_C6_witness :
    parseLine "GARBAGE|xyz" = ParsedLine.skipped ∧
      parseLine "SAMPLE|TEMP|1" = ParsedLine.skipped :=
  ⟨(claim_C6 [] "GARBAGE|xyz").2.1 (by decide) (by decide),
    (claim_C6 [] "SAMPLE|TEMP|1").2.2.1 (by decide) (by decide)⟩

/-- C10: the info field of a well-formed `ALERT` line is exactly the fifth
`|`-separated field; any later fields (for example from a `|` inside the
free-form info text) are discarded. -/
theorem claim_C10 (line : String)
    (h1 : (lineParts line).headD [] = "ALERT".data)
    (h2 : 5 ≤ (lineParts line).length)
    (v t : ℚ)
    (hv : parseFloat ((lineParts line).getD 2 []) = some v)
    (ht : parseFloat ((lineParts line).getD 3 []) = some t) :
    parseLine line =
      ParsedLine.alert
        ⟨(lineParts line).getD 1 [], v, truncRat t, (lineParts line).getD 4 []⟩ := by
  rw [parseLine_eq,
    if_neg (fun hc =>
      absurd (hc.1.symm.trans h1)
        (by decide : ¬("SAMPLE".data : List Char) = "ALERT".data)),
    if_pos ⟨h1, h2⟩, hv, ht]

/-- C10 witness: in `ALERT|TEMP|1|2|hello|world` the info stored is
exactly `hello`; the sixth field is discarded. -/
theorem claim_C10_witness :
    parseLine "ALERT|TEMP|1|2|hello|world" =
      ParsedLine.alert ⟨"TEMP".data, 1, 2, "hello".data⟩ := by
  rw [claim_C10 "ALERT|TEMP|1|2|hello|world" (by decide) (by decide) 1 2 (by decide) (by decide)]
  decide

/-- C7 counterexample: `SAMPLE|TEMP|x|1` has a non-numeric value field, so
check_log counts one TEMP sample while parse_log yields none. -/
theorem claim_C7_counterexample :
    sample_counts ["SAMPLE|TEMP|x|1"] SensorType.TEMP = 1 ∧
      ((parse_log ["SAMPLE|TEMP|x|1"]).1.filter
        (fun s => decide (s.type = SensorType.TEMP.tag))).length = 0 :=
  ⟨by decide, by decide⟩

/-- C7 (amended): the checker's per-sensor counts equal the counts
obtained by grouping the parser's typed sequences by sensor type,
provided every countable `SAMPLE`/`ALERT` line also passes numeric
conversion of its value and timestamp fields (without that proviso the
checker can count lines the parser drops). -/
theorem claim_C7_amended (lines : List String) (k : SensorType)
    (h : ∀ line ∈ lines, lineConvertible line = true) :
    ((parse_log lines).1.filter (fun s => decide (s.type = k.tag))).length
        = sample_counts lines k ∧
    ((parse_log lines).2.filter (fun a => decide (a.type = k.tag))).length
        = alert_counts lines k := by
  induction lines with
  | nil => exact ⟨rfl, rfl⟩
  | cons l ls ih =>
    have hl := h l (List.mem_cons_self l ls)
    have hls : ∀ line ∈ ls, lineConvertible line = true :=
      fun x hx => h x (List.mem_cons_of_mem l hx)
    obtain ⟨ih1, ih2⟩ := ih hls
    rw [parse_log_cons]
    unfold sample_counts alert_counts at *
    rw [List.countP_cons, List.countP_cons]
    rcases hcase : checkCountsLine l with _ | ⟨b, t⟩
    · rw [checkCounts_none_skipped l hcase]
      simp [hcase, ih1, ih2]
    · cases b
      · obtain ⟨v, ts, inf, hp⟩ := checkCounts_alert l t hl hcase
        rw [hp]
        by_cases htk : t = k.tag <;>
          simp [hcase, htk, ih1, ih2, List.filter_cons]
      · obtain ⟨v, ts, hp⟩ := checkCounts_sample l t hl hcase
        rw [hp]
        by_cases htk : t = k.tag <;>
          simp [hcase, htk, ih1, ih2, List.filter_cons]

/-- C7 witness: on a log whose lines all convert, the two counters agree
for TEMP. -/
theorem claim_C7_witness :
    (∀ line ∈ ["SAMPLE|TEMP|21|1000", "ALERT|TEMP|99|1500|hot", "junk"],
      lineConvertible line = true) ∧
    ((parse_log ["SAMPLE|TEMP|21|1000", "ALERT|TEMP|99|1500|hot", "junk"]).1.filter
        (fun s => decide (s.type = SensorType.TEMP.tag))).length
      = sample_counts ["SAMPLE|TEMP|21|1000", "ALERT|TEMP|99|1500|hot", "junk"]
          SensorType.TEMP :=
  ⟨by decide,
    (claim_C7_amended ["SAMPLE|TEMP|21|1000", "ALERT|TEMP|99|1500|hot", "junk"]
      SensorType.TEMP (by decide)).1⟩

theorem mem_insertBy {α : Type} (le : α → α → Bool) (a b : α) (l : List α) :
    b ∈ insertBy le a l ↔ b = a ∨ b ∈ l := by
  induction l with
  | nil => simp [insertBy]
  | cons c cs ih =>
    unfold insertBy
    split_ifs <;> simp_all <;> tauto

theorem mem_sortBy {α : Type} (le : α → α → Bool) (b : α) (l : List α) :
    b ∈ sortBy le l ↔ b ∈ l := by
  induction l with
  | nil => simp [sortBy]
  | cons c cs ih =>
    unfold sortBy
    rw [mem_insertBy]
    simp [ih]

theorem length_insertBy {α : Type} (le : α → α → Bool) (a : α) (l : List α) :
    (insertBy le a l).length = l.length + 1 := by
  induction l with
  | nil => rfl
  | cons c cs ih =>
    unfold insertBy
    split_ifs <;> simp [ih]

theorem length_sortBy {α : Type} (le : α → α → Bool) (l : List α) :
    (sortBy le l).length = l.length := by
  induction l with
  | nil => rfl
  | cons c cs ih =>
    unfold sortBy
    rw [length_insertBy, ih]
    rfl

theorem mem_uniqueAux {α : Type} [DecidableEq α] (b : α) (l seen : List α) :
    b ∈ uniqueAux seen l ↔ b ∈ l ∧ b ∉ seen := by
  induction l generalizing seen with
  | nil => simp [uniqueAux]
  | cons c cs ih =>
    unfold uniqueAux
    split_ifs with hc
    · rw [ih]
      constructor
      · rintro ⟨h1, h2⟩
        exact ⟨List.mem_cons_of_mem c h1, h2⟩
      · rintro ⟨h1, h2⟩
        rcases List.mem_cons.mp h1 with h | h
        · exact absurd (h ▸ hc) h2
        · exact ⟨h, h2⟩
    · simp only [List.mem_cons, ih, List.mem_cons]
      constructor
      · rintro (h | ⟨h1, h2⟩)
        · subst h
          exact ⟨Or.inl rfl, hc⟩
        · exact ⟨Or.inr h1, fun hb => h2 (Or.inr hb)⟩
      · rintro ⟨h1 | h1, h2⟩
        · exact Or.inl h1
        · by_cases hb : b = c
          · exact Or.inl hb
          · exact Or.inr ⟨h1, fun hs => h2 (Or.resolve_left hs hb)⟩

theorem mem_uniqueFirst {α : Type} [DecidableEq α] (b : α) (l : List α) :
    b ∈ uniqueFirst l ↔ b ∈ l := by
  unfold uniqueFirst
  rw [mem_uniqueAux]
  simp

/-- When `summary_csv` succeeds, the produced rows are the mapped loop
bodies over the sorted distinct sensor types. -/
theorem summary_csv_some (samples : List Sample) (alerts : List Alert)
    (rows : List SummaryRow) (h : summary_csv samples alerts = some rows) :
    rows = (sortBy charListLe (uniqueFirst (samples.map Sample.type))).map
      (mkRow samples alerts) := by
  unfold summary_csv at h
  split_ifs at h
  all_goals first
    | exact (Option.some_inj.mp h).symm
    | exact absurd h (by simp)

/-- A sensor name heads a row of a produced summary iff it occurs among
the parsed samples' types. -/
theorem sensor_mem_rows (samples : List Sample) (alerts : List Alert) (t : List Char) :
    (∃ row ∈ (sortBy charListLe (uniqueFirst (samples.map Sample.type))).map
        (mkRow samples alerts), row.sensor = t) ↔
      t ∈ samples.map Sample.type := by
  constructor
  · rintro ⟨row, hrow, hsens⟩
    obtain ⟨s, hs, hrow'⟩ := List.mem_map.mp hrow
    have : s = t := by rw [← hsens, ← hrow']; rfl
    rw [← this]
    exact (mem_uniqueFirst s _).mp ((mem_sortBy _ s _).mp hs)
  · intro ht
    refine ⟨mkRow samples alerts t, List.mem_map_of_mem _ ?_, rfl⟩
    exact (mem_sortBy _ t _).mpr ((mem_uniqueFirst t _).mpr ht)

/-- C4 counterexample: a log with exactly one TEMP sample and no ALERT
lines; TEMP has exactly one parsed sample, yet summary_csv aborts (the
uncaught KeyError on the column-less empty alerts frame) and emits no
row at all, so none of count, min, max, mean, std, alert_count is
present for it, contrary to the claim. -/
theorem claim_C4_counterexample :
    ((parse_log ["SAMPLE|TEMP|5|0"]).1.filter
        (fun s => decide (s.type = "TEMP".data))).length = 1 ∧
    summary_csv (parse_log ["SAMPLE|TEMP|5|0"]).1
      (parse_log ["SAMPLE|TEMP|5|0"]).2 = none :=
  ⟨by decide, by decide⟩

/-- C4 (amended): whenever the summary is produced at all — the source
aborts with an uncaught KeyError when zero alerts (or zero samples)
parsed, emitting nothing — a sensor type with zero parsed samples yields
no SummaryRow, and a sensor with exactly one sample gets a row whose std
is undefined while count, min, max, mean and alert_count are present. -/
theorem claim_C4_amended (samples : List Sample) (alerts : List Alert)
    (t : List Char) (rows : List SummaryRow)
    (hsum : summary_csv samples alerts = some rows) :
    (samples.filter (fun s => decide (s.type = t)) = [] →
      ∀ row ∈ rows, row.sensor ≠ t) ∧
    ((samples.filter (fun s => decide (s.type = t))).length = 1 →
      ∃ row ∈ rows,
        row.sensor = t ∧ row.count = 1 ∧ row.std = none ∧
        row.min.isSome = true ∧ row.max.isSome = true ∧ row.mean.isSome = true ∧
        row.alert_count = (alerts.filter (fun a => decide (a.type = t))).length) := by
  rw [summary_csv_some samples alerts rows hsum]
  constructor
  · intro hfil row hrow hsens
    have ht := (sensor_mem_rows samples alerts t).mp ⟨row, hrow, hsens⟩
    obtain ⟨s, hs, hst⟩ := List.mem_map.mp ht
    have hmem : s ∈ samples.filter (fun s => decide (s.type = t)) :=
      List.mem_filter.mpr ⟨hs, by simp [hst]⟩
    rw [hfil] at hmem
    exact absurd hmem (List.not_mem_nil s)
  · intro hlen
    obtain ⟨x, hx⟩ := List.length_eq_one.mp hlen
    have hxmem : x ∈ samples.filter (fun s => decide (s.type = t)) := by
      rw [hx]
      exact List.mem_cons_self x []
    have hxs := List.mem_filter.mp hxmem
    have hxt : x.type = t := by simpa using hxs.2
    have htmem : t ∈ samples.map Sample.type := List.mem_map.mpr ⟨x, hxs.1, hxt⟩
    refine ⟨mkRow samples alerts t,
      List.mem_map_of_mem _
        ((mem_sortBy _ t _).mpr ((mem_uniqueFirst t _).mpr htmem)), ?_⟩
    unfold mkRow
    simp [hx, sampleVar, listMin, listMax]

/-- C4 witness: one TEMP sample alongside one HUM alert (so the summary
is actually produced): the TEMP row has std undefined while the other
statistics, including a zero alert_count, are present. -/
theorem claim_C4_witness :
    summary_csv [⟨"TEMP".data, 5, 0⟩] [⟨"HUM".data, 1, 2, "x".data⟩]
        = some ((sortBy charListLe (uniqueFirst
            (([⟨"TEMP".data, 5, 0⟩] : List Sample).map Sample.type))).map
          (mkRow [⟨"TEMP".data, 5, 0⟩] [⟨"HUM".data, 1, 2, "x".data⟩])) ∧
    (([⟨"TEMP".data, 5, 0⟩] : List Sample).filter
        (fun s => decide (s.type = "TEMP".data))).length = 1 ∧
    ∃ row ∈ (sortBy charListLe (uniqueFirst
          (([⟨"TEMP".data, 5, 0⟩] : List Sample).map Sample.type))).map
        (mkRow [⟨"TEMP".data, 5, 0⟩] [⟨"HUM".data, 1, 2, "x".data⟩]),
      row.sensor = "TEMP".data ∧ row.count = 1 ∧ row.std = none ∧
      row.min.isSome = true ∧ row.max.isSome = true ∧ row.mean.isSome = true ∧
      row.alert_count = (([⟨"HUM".data, 1, 2, "x".data⟩] : List Alert).filter
        (fun a => decide (a.type = "TEMP".data))).length :=
  ⟨rfl, by decide,
    (claim_C4_amended [⟨"TEMP".data, 5, 0⟩] [⟨"HUM".data, 1, 2, "x".data⟩]
      "TEMP".data _ rfl).2 (by decide)⟩

theorem checkCountsLine_snd (line : String) (b : Bool) (t : List Char)
    (h : checkCountsLine line = some (b, t)) : t = (lineParts line).getD 1 [] := by
  rw [checkCountsLine_eq] at h
  split_ifs at h <;> simp_all

/-- C5 counterexample: the claim says a SAMPLE line with sensor type
outside TEMP/HUM/PRESS contributes to no SummaryRow of the summary
output; but on the log `SAMPLE|FOO|1|2`, `ALERT|TEMP|1|2|hot` — whose
alert line lets the summary run to completion instead of aborting — the
produced summary consists of exactly one row, and it is for FOO. -/
theorem claim_C5_counterexample :
    (summary_csv (parse_log ["SAMPLE|FOO|1|2", "ALERT|TEMP|1|2|hot"]).1
        (parse_log ["SAMPLE|FOO|1|2", "ALERT|TEMP|1|2|hot"]).2).map
      (fun rows => rows.map SummaryRow.sensor) = some ["FOO".data] := by
  decide

/-- C5 (amended): lines whose sensor-type field is outside TEMP/HUM/PRESS
contribute to no per-sensor sample or alert count of the checker; and
whenever the summary is produced at all (the source aborts with an
uncaught KeyError when zero samples or zero alerts parsed), it has one
SummaryRow for every distinct type present in the parsed samples,
unknown types included. -/
theorem claim_C5_amended (lines : List String) (line : String) (k : SensorType)
    (hline : ∀ j : SensorType, (lineParts line).getD 1 [] ≠ j.tag)
    (samples : List Sample) (alerts : List Alert) (rows : List SummaryRow)
    (hsum : summary_csv samples alerts = some rows) (t : List Char) :
    sample_counts (line :: lines) k = sample_counts lines k ∧
    alert_counts (line :: lines) k = alert_counts lines k ∧
    ((∃ row ∈ rows, row.sensor = t) ↔ t ∈ samples.map Sample.type) := by
  refine ⟨?_, ?_, ?_⟩
  · unfold sample_counts
    rw [List.countP_cons]
    have hnot : ¬checkCountsLine line = some (true, k.tag) := fun hc =>
      hline k (checkCountsLine_snd line true k.tag hc).symm
    simp [hnot]
  · unfold alert_counts
    rw [List.countP_cons]
    have hnot : ¬checkCountsLine line = some (false, k.tag) := fun hc =>
      hline k (checkCountsLine_snd line false k.tag hc).symm
    simp [hnot]
  · rw [summary_csv_some samples alerts rows hsum]
    exact sensor_mem_rows samples alerts t

/-- C5 witness: a FOO sample line changes no checker count, and FOO shows
up among the produced summary rows when an alert is present. -/
theorem claim_C5_witness :
    sample_counts ["SAMPLE|FOO|1|2", "SAMPLE|TEMP|1|2"] SensorType.TEMP
        = sample_counts ["SAMPLE|TEMP|1|2"] SensorType.TEMP ∧
    ((∃ row ∈ (sortBy charListLe (uniqueFirst
          (([⟨"FOO".data, 1, 2⟩] : List Sample).map Sample.type))).map
        (mkRow [⟨"FOO".data, 1, 2⟩] [⟨"TEMP".data, 1, 2, "h".data⟩]),
        row.sensor = "FOO".data) ↔
      "FOO".data ∈ ([⟨"FOO".data, 1, 2⟩] : List Sample).map Sample.type) :=
  ⟨(claim_C5_amended ["SAMPLE|TEMP|1|2"] "SAMPLE|FOO|1|2" SensorType.TEMP
      (by intro j; cases j <;> decide) [⟨"FOO".data, 1, 2⟩]
      [⟨"TEMP".data, 1, 2, "h".data⟩] _ rfl "FOO".data).1,
    (claim_C5_amended ["SAMPLE|TEMP|1|2"] "SAMPLE|FOO|1|2" SensorType.TEMP
      (by intro j; cases j <;> decide) [⟨"FOO".data, 1, 2⟩]
      [⟨"TEMP".data, 1, 2, "h".data⟩] _ rfl "FOO".data).2.2⟩

theorem length_rollingMean (vals : List ℚ) (w : Nat) :
    (rollingMean vals w).length = vals.length := by
  simp [rollingMean]

theorem rollingMean_getD (vals : List ℚ) (w i : Nat) (h : i < vals.length) :
    (rollingMean vals w).getD i 0 =
      listMean ((vals.take (i + 1)).drop (i + 1 - w)) := by
  unfold rollingMean
  rw [List.getD_eq_getElem?_getD, List.getElem?_map, List.getElem?_range h]
  rfl

theorem window_eq_specWindow (vals : List ℚ) (w i : Nat) :
    (vals.take (i + 1)).drop (i + 1 - w) = specWindow vals w i := by
  rw [List.drop_take]
  unfold specWindow
  have hlo : (if w ≤ i + 1 then i + 1 - w else 0) = i + 1 - w := by
    split <;> omega
  rw [hlo]

theorem listMean_const (l : List ℚ) (c : ℚ) (hne : l ≠ []) (hc : ∀ x ∈ l, x = c) :
    listMean l = c := by
  unfold listMean
  rw [List.sum_eq_card_nsmul l c hc, nsmul_eq_mul]
  have hlen : (l.length : ℚ) ≠ 0 :=
    Nat.cast_ne_zero.mpr (Nat.pos_iff_ne_zero.mp (List.length_pos.mpr hne))
  rw [mul_comm, mul_div_assoc, div_self hlen, mul_one]

/-- C3: the moving-average series of `plot_timeseries` is as long as the
(sorted) per-sensor sample series, and its value at each position i is
the arithmetic mean of the sorted sample values at positions
max(0, i-window+1) through i inclusive — every position, the first
included, receives a value. -/
theorem claim_C3 (samples : List Sample) (sensor : List Char) (w : Nat)
    (hw : 0 < w) :
    (sensorSeries samples sensor).length =
      (samples.filter (fun s => decide (s.type = sensor))).length ∧
    (plotMA samples sensor w).length = (sensorSeries samples sensor).length ∧
    ∀ i, i < (sensorSeries samples sensor).length →
      (plotMA samples sensor w).getD i 0 =
        listMean (specWindow ((sensorSeries samples sensor).map Sample.value) w i) := by
  refine ⟨length_sortBy _ _, ?_, ?_⟩
  · unfold plotMA
    rw [length_rollingMean, List.length_map]
  · intro i hi
    unfold plotMA
    rw [rollingMean_getD _ _ _ (by rw [List.length_map]; exact hi),
      window_eq_specWindow]

/-- C3 witness: instantiated on a two-sample TEMP series with window 5. -/
theorem claim_C3_witness :
    (0 : Nat) < 5 ∧
    (plotMA [⟨"TEMP".data, 4, 10⟩, ⟨"TEMP".data, 2, 5⟩] "TEMP".data 5).length =
      (sensorSeries [⟨"TEMP".data, 4, 10⟩, ⟨"TEMP".data, 2, 5⟩] "TEMP".data).length :=
  ⟨by decide,
    (claim_C3 [⟨"TEMP".data, 4, 10⟩, ⟨"TEMP".data, 2, 5⟩] "TEMP".data 5
      (by decide)).2.1⟩

/-- C9: a single-element input yields exactly one point whose rolling
mean is the raw value, and on a constant input every rolling mean equals
that constant. -/
theorem claim_C9 (v c : ℚ) (vals : List ℚ) (w : Nat) (hw : 0 < w)
    (hc : ∀ x ∈ vals, x = c) :
    rollingMean [v] w = [v] ∧
    ∀ i, i < vals.length → (rollingMean vals w).getD i 0 = c := by
  constructor
  · have h1w : 1 - w = 0 := by omega
    unfold rollingMean
    simp [List.range_succ, h1w, listMean]
  · intro i hi
    rw [rollingMean_getD vals w i hi]
    apply listMean_const _ c
    · have hlen : ((vals.take (i + 1)).drop (i + 1 - w)).length
          = (i + 1) - (i + 1 - w) := by
        rw [List.length_drop, List.length_take]
        omega
      intro hnil
      rw [hnil] at hlen
      simp at hlen
      omega
    · intro x hx
      exact hc x (List.take_subset _ _ (List.drop_subset _ _ hx))

/-- C9 witness: singleton series with window 2, constant series [3,3,3]. -/
theorem claim_C9_witness :
    (0 : Nat) < 2 ∧ (∀ x ∈ ([3, 3, 3] : List ℚ), x = 3) ∧
    rollingMean [(7 : ℚ)] 2 = [7] :=
  ⟨by decide, by decide, (claim_C9 7 3 [3, 3, 3] 2 (by decide) (by decide)).1⟩
